import Mathlib

/-!
Verification development for the ReSTIR DI temporal resampling engine of the
HIPRT-Path-Tracer renderer.

Modelling conventions (shallow embedding):

* 32-bit floats are modelled as exact rationals (`ℚ`).  Division is Lean's
  total division on `ℚ` (division by zero yields 0); `isNaN` is identically
  `false` in this exact-arithmetic model since rationals have no NaN.
* `hippt::length` takes a square root, which does not exist on `ℚ`; every
  definition that needs it is parametrised by an uninterpreted function
  `sqrt : ℚ → ℚ`.  All theorems are quantified over `sqrt`, hence hold in
  particular for the true square root.
* External collaborators that are not part of the resampling engine
  (BSDF evaluation `bsdf_dispatcher_eval`, the shadow-ray query
  `evaluate_shadow_ray`, and the scene-geometry accessor
  `get_triangle_normal_non_normalized`) are modelled as oracle fields of
  `HIPRTRenderData`; theorems quantify over every possible oracle.
* Machine integers (`int` M values, pixel indices, triangle indices) are
  modelled as `Int`; the 32-bit RNG state as `Nat` with explicit `% 2^32`.
* The compile-time kernel options (`ReSTIR_DI_BiasCorrectionUseVisiblity`,
  `KERNEL_OPTION_TRUE/FALSE`) are modelled as a `Bool` parameter.
-/

/-- 3-component vector of floats, modelled over `ℚ` (float3). -/
structure Float3 where
  x : ℚ
  y : ℚ
  z : ℚ
deriving DecidableEq

/-- Componentwise subtraction of two float3 vectors. -/
def Float3.sub (a b : Float3) : Float3 := ⟨a.x - b.x, a.y - b.y, a.z - b.z⟩

/-- Componentwise negation (unary minus on float3). -/
def Float3.neg (a : Float3) : Float3 := ⟨-a.x, -a.y, -a.z⟩

/-- Division of a float3 by a scalar, componentwise. -/
def Float3.sdiv (a : Float3) (s : ℚ) : Float3 := ⟨a.x / s, a.y / s, a.z / s⟩

/-- hippt::dot — dot product of two float3 vectors. -/
def hipptDot (a b : Float3) : ℚ := a.x * b.x + a.y * b.y + a.z * b.z

/-- hippt::length — Euclidean norm, through the uninterpreted `sqrt`. -/
def hipptLength (sqrt : ℚ → ℚ) (v : Float3) : ℚ :=
  sqrt (v.x * v.x + v.y * v.y + v.z * v.z)

/-- hippt::normalize — vector divided by its length. -/
def hipptNormalize (sqrt : ℚ → ℚ) (v : Float3) : Float3 :=
  v.sdiv (hipptLength sqrt v)

/-- hippt::isNaN — in the exact rational model no value is NaN. -/
def hipptIsNaN (_ : ℚ) : Bool := false

/-- RGB 32-bit-float colour (ColorRGB32F), components over `ℚ`. -/
structure ColorRGB32F where
  r : ℚ
  g : ℚ
  b : ℚ
deriving DecidableEq

/-- Componentwise product of two colours. -/
def ColorRGB32F.mul (a b : ColorRGB32F) : ColorRGB32F :=
  ⟨a.r * b.r, a.g * b.g, a.b * b.b⟩

/-- Colour scaled by a scalar. -/
def ColorRGB32F.smul (a : ColorRGB32F) (s : ℚ) : ColorRGB32F :=
  ⟨a.r * s, a.g * s, a.b * s⟩

/-- Luminance of a colour, coefficients from src/Device/includes/Texture.h
(0.3086, 0.6094, 0.0820). -/
def ColorRGB32F.luminance (c : ColorRGB32F) : ℚ :=
  (3086 / 10000) * c.r + (6094 / 10000) * c.g + (820 / 10000) * c.b

/-- Ray/volume nesting state carried by a surface; its contents are never
inspected by the resampling engine (it is only forwarded to the BSDF oracle),
so it is modelled as an opaque one-field structure. -/
structure RayVolumeState where
  token : Nat := 0
deriving DecidableEq

/-- Material record; only the fields the resampling engine reads are
modelled (`emission` in the target function, `roughness` in the similarity
heuristics). -/
structure RendererMaterial where
  emission : ColorRGB32F
  roughness : ℚ
deriving DecidableEq

/-- ReSTIRDISample — one retained light sample: emissive triangle index
(−1 is the "no sample" sentinel) and the point sampled on the light. -/
structure ReSTIRDISample where
  emissive_triangle_index : Int
  point_on_light_source : Float3
deriving DecidableEq

/-- ReSTIRDIReservoir — the fields the excerpted code reads: retained
sample, running `weight_sum` and integer confidence `M`. -/
structure ReSTIRDIReservoir where
  sample : ReSTIRDISample
  weight_sum : ℚ
  M : Int
deriving DecidableEq

/-- ReSTIRDISurface — per-pixel shading context snapshot. -/
structure ReSTIRDISurface where
  shading_point : Float3
  shading_normal : Float3
  view_direction : Float3
  material : RendererMaterial
  ray_volume_state : RayVolumeState

/-- Target-function settings (geometry-term toggle). -/
structure ReSTIRDITargetFunctionSettings where
  geometry_term_in_target_function : Bool

/-- ReSTIR DI runtime settings read by the excerpted code. -/
structure ReSTIRDISettings where
  target_function : ReSTIRDITargetFunctionSettings
  plane_distance_threshold : ℚ
  normal_similarity_angle_precomp : ℚ
  roughness_similarity_threshold : ℚ

/-- Render settings wrapper (render_data.render_settings). -/
structure RenderSettings where
  restir_di_settings : ReSTIRDISettings

/-- G-buffer accessors used by the heuristics (per-pixel first hit point,
shading normal, material). -/
structure GBuffer where
  first_hits : Int → Float3
  shading_normals : Int → Float3
  materials : Int → RendererMaterial

/-- Scene buffers used by the target function. -/
structure RenderBuffers where
  material_indices : Int → Int
  materials_buffer : Int → RendererMaterial

/-- HIPRTRenderData — the slices of render data the engine reads, plus the
external collaborators modelled as oracle fields:
`bsdf_eval` models `bsdf_dispatcher_eval` (returns colour and pdf),
`shadow_ray_hit` models `evaluate_shadow_ray`, and `triangle_normal`
models `get_triangle_normal_non_normalized`. -/
structure HIPRTRenderData where
  render_settings : RenderSettings
  g_buffer : GBuffer
  buffers : RenderBuffers
  triangle_normal : Int → Float3
  bsdf_eval : (Int → RendererMaterial) → RendererMaterial → RayVolumeState →
    Float3 → Float3 → Float3 → ColorRGB32F × ℚ
  shadow_ray_hit : Float3 → Float3 → ℚ → Bool

/-- Xorshift32State — 32-bit RNG state, modelled as `Nat` (kept `< 2^32`
by the update). -/
structure Xorshift32State where
  a : Nat
deriving DecidableEq

/-- Xorshift32Generator::xorshift32 — one step of Marsaglia's xorshift
("xor" algorithm, shifts 13/17/5) on 32-bit unsigned state; left shifts
wrap modulo 2^32.  Returns the new state, which is also the value returned
by the C++ function. -/
def xorshift32 (state : Xorshift32State) : Xorshift32State :=
  let x0 := state.a
  let x1 := (x0 ^^^ (x0 <<< 13)) % 2 ^ 32
  let x2 := x1 ^^^ (x1 >>> 17)
  let x3 := (x2 ^^^ (x2 <<< 5)) % 2 ^ 32
  ⟨x3⟩

/-- Xorshift32Generator::operator() — advances the state once and returns
`min (value / UINT_MAX) (1 - 1e-6)` together with the new state. -/
def xorshift32Call (state : Xorshift32State) : ℚ × Xorshift32State :=
  let next := xorshift32 state
  (min ((next.a : ℚ) / 4294967295) (1 - 1 / 1000000), next)

/-- ReSTIR_DI_evaluate_target_function — non-specialised primary template:
on the host it logs a wrong-specialisation error and returns −1.0f. -/
def ReSTIR_DI_evaluate_target_function_primary (_render_data : HIPRTRenderData)
    (_sample : ReSTIRDISample) (_surface : ReSTIRDISurface) : ℚ :=
  -1

/-- ReSTIR_DI_evaluate_target_function\<KERNEL_OPTION_FALSE\> — target
function without the visibility test (ReSTIR_DI_Utils.h, lines 27–63). -/
def ReSTIR_DI_evaluate_target_function_noVis (sqrt : ℚ → ℚ)
    (render_data : HIPRTRenderData) (sample : ReSTIRDISample)
    (surface : ReSTIRDISurface) : ℚ :=
  if sample.emissive_triangle_index = -1 then
    -- No sample
    0
  else
    let sample_direction0 := sample.point_on_light_source.sub surface.shading_point
    let distance_to_light := hipptLength sqrt sample_direction0
    let sample_direction := sample_direction0.sdiv distance_to_light
    let bsdf_color := (render_data.bsdf_eval render_data.buffers.materials_buffer
      surface.material surface.ray_volume_state surface.view_direction
      surface.shading_normal sample_direction).1
    let cosine_term := max 0 (hipptDot surface.shading_normal sample_direction)
    let geometry_term :=
      if render_data.render_settings.restir_di_settings.target_function.geometry_term_in_target_function then
        let light_source_normal := hipptNormalize sqrt
          (render_data.triangle_normal sample.emissive_triangle_index)
        let cosine_at_light_source := |hipptDot sample_direction light_source_normal|
        cosine_at_light_source / (distance_to_light * distance_to_light)
      else 1
    let material_index := render_data.buffers.material_indices sample.emissive_triangle_index
    let sample_emission := (render_data.buffers.materials_buffer material_index).emission
    let target_function :=
      (((bsdf_color.mul sample_emission).smul cosine_term).smul geometry_term).luminance
    if target_function = 0 then 0 else target_function

/-- ReSTIR_DI_evaluate_target_function\<KERNEL_OPTION_TRUE\> — target
function with the shadow-ray visibility test (ReSTIR_DI_Utils.h,
lines 65–109). -/
def ReSTIR_DI_evaluate_target_function_withVis (sqrt : ℚ → ℚ)
    (render_data : HIPRTRenderData) (sample : ReSTIRDISample)
    (surface : ReSTIRDISurface) : ℚ :=
  if sample.emissive_triangle_index = -1 then
    -- No sample
    0
  else
    let sample_direction0 := sample.point_on_light_source.sub surface.shading_point
    let distance_to_light := hipptLength sqrt sample_direction0
    let sample_direction := sample_direction0.sdiv distance_to_light
    let bsdf_color := (render_data.bsdf_eval render_data.buffers.materials_buffer
      surface.material surface.ray_volume_state surface.view_direction
      surface.shading_normal sample_direction).1
    let cosine_term := max 0 (hipptDot surface.shading_normal sample_direction)
    let geometry_term :=
      if render_data.render_settings.restir_di_settings.target_function.geometry_term_in_target_function then
        let light_source_normal := hipptNormalize sqrt
          (render_data.triangle_normal sample.emissive_triangle_index)
        let cosine_at_light_source := |hipptDot sample_direction light_source_normal|
        cosine_at_light_source / (distance_to_light * distance_to_light)
      else 1
    let material_index := render_data.buffers.material_indices sample.emissive_triangle_index
    let sample_emission := (render_data.buffers.materials_buffer material_index).emission
    let target_function :=
      (((bsdf_color.mul sample_emission).smul cosine_term).smul geometry_term).luminance
    if target_function = 0 then 0
    else
      -- shadow ray from the shading point towards the light sample
      let visible := ! render_data.shadow_ray_hit surface.shading_point
        sample_direction distance_to_light
      target_function * (if visible then 1 else 0)

/-- Dispatch on the compile-time option `ReSTIR_DI_BiasCorrectionUseVisiblity`
(modelled as a `Bool`): selects the with- or without-visibility
specialisation of the target function. -/
def ReSTIR_DI_evaluate_target_function (useVisibility : Bool) (sqrt : ℚ → ℚ)
    (render_data : HIPRTRenderData) (sample : ReSTIRDISample)
    (surface : ReSTIRDISurface) : ℚ :=
  if useVisibility then
    ReSTIR_DI_evaluate_target_function_withVis sqrt render_data sample surface
  else
    ReSTIR_DI_evaluate_target_function_noVis sqrt render_data sample surface

/-- The raw (pre-clamp) reconnection-shift Jacobian computed by
`get_jacobian_determinant_reconnection_shift` (ReSTIR_DI_Utils.h,
lines 113–128), before the clamp/reject decision. -/
def jacobian_reconnection_shift_raw (sqrt : ℚ → ℚ)
    (render_data : HIPRTRenderData) (neighbor_reservoir : ReSTIRDIReservoir)
    (center_pixel_shading_point neighbor_shading_point : Float3) : ℚ :=
  let to_light_direction_at_center0 :=
    neighbor_reservoir.sample.point_on_light_source.sub center_pixel_shading_point
  let to_light_direction_at_neighbor0 :=
    neighbor_reservoir.sample.point_on_light_source.sub neighbor_shading_point
  let distance_to_light_at_center := hipptLength sqrt to_light_direction_at_center0
  let distance_to_light_at_neighbor := hipptLength sqrt to_light_direction_at_neighbor0
  let to_light_direction_at_center :=
    to_light_direction_at_center0.sdiv distance_to_light_at_center
  let to_light_direction_at_neighbor :=
    to_light_direction_at_neighbor0.sdiv distance_to_light_at_neighbor
  let light_source_normal := hipptNormalize sqrt
    (render_data.triangle_normal neighbor_reservoir.sample.emissive_triangle_index)
  let cosine_light_source_at_center :=
    |hipptDot to_light_direction_at_center.neg light_source_normal|
  let cosine_light_source_at_neighbor :=
    |hipptDot to_light_direction_at_neighbor.neg light_source_normal|
  let cosine_ratio := cosine_light_source_at_center / cosine_light_source_at_neighbor
  let distance_squared_ratio :=
    (distance_to_light_at_neighbor * distance_to_light_at_neighbor) /
      (distance_to_light_at_center * distance_to_light_at_center)
  cosine_ratio * distance_squared_ratio

/-- get_jacobian_determinant_reconnection_shift (ReSTIR_DI_Utils.h,
lines 111–136): computes the reconnection-shift Jacobian and returns the
sentinel −1 when it falls outside the clamp range [1/20, 20] or is NaN. -/
def get_jacobian_determinant_reconnection_shift (sqrt : ℚ → ℚ)
    (render_data : HIPRTRenderData) (neighbor_reservoir : ReSTIRDIReservoir)
    (center_pixel_shading_point neighbor_shading_point : Float3) : ℚ :=
  let jacobian := jacobian_reconnection_shift_raw sqrt render_data
    neighbor_reservoir center_pixel_shading_point neighbor_shading_point
  let jacobian_clamp : ℚ := 20
  if jacobian > jacobian_clamp ∨ jacobian < 1 / jacobian_clamp ∨
      hipptIsNaN jacobian = true then
    -- Samples are too dissimilar, returning -1 to indicate rejection
    -1
  else
    jacobian

/-- The distance to the light sample computed inside the Jacobian
(`hippt::length` of light point minus shading point). -/
def jacobian_distance_to_light (sqrt : ℚ → ℚ) (nres : ReSTIRDIReservoir)
    (p : Float3) : ℚ :=
  hipptLength sqrt (nres.sample.point_on_light_source.sub p)

/-- The cosine at the light source computed inside the Jacobian: absolute
dot product of the reversed (normalised) direction to the light with the
normalised light-source normal. -/
def jacobian_cosine_at (sqrt : ℚ → ℚ) (rd : HIPRTRenderData)
    (nres : ReSTIRDIReservoir) (p : Float3) : ℚ :=
  |hipptDot ((nres.sample.point_on_light_source.sub p).sdiv
      (jacobian_distance_to_light sqrt nres p)).neg
    (hipptNormalize sqrt
      (rd.triangle_normal nres.sample.emissive_triangle_index))|

/-- plane_distance_heuristic (ReSTIR_DI_Utils.h, lines 146–152). -/
def plane_distance_heuristic (temporal_world_space_point current_point
    current_surface_normal : Float3) (plane_distance_threshold : ℚ) : Bool :=
  let direction_between_points := temporal_world_space_point.sub current_point
  let distance_to_plane := |hipptDot direction_between_points current_surface_normal|
  distance_to_plane < plane_distance_threshold

/-- normal_similarity_heuristic (ReSTIR_DI_Utils.h, lines 154–157). -/
def normal_similarity_heuristic (current_normal neighbor_normal : Float3)
    (threshold : ℚ) : Bool :=
  hipptDot current_normal neighbor_normal > threshold

/-- roughness_similarity_heuristic (ReSTIR_DI_Utils.h, lines 159–171). -/
def roughness_similarity_heuristic (neighbor_roughness center_pixel_roughness
    threshold : ℚ) : Bool :=
  |neighbor_roughness - center_pixel_roughness| < threshold

/-- check_similarity_heuristics (ReSTIR_DI_Utils.h, lines 173–185):
conjunction of the plane-distance, normal-similarity and
roughness-similarity gates on G-buffer data. -/
def check_similarity_heuristics (render_data : HIPRTRenderData)
    (neighbor_index center_pixel_index : Int)
    (current_shading_point current_normal : Float3) : Bool :=
  let temporal_neighbor_point := render_data.g_buffer.first_hits neighbor_index
  let temporal_neighbor_roughness :=
    (render_data.g_buffer.materials neighbor_index).roughness
  let current_material_roughness :=
    (render_data.g_buffer.materials center_pixel_index).roughness
  let plane_distance_passed := plane_distance_heuristic temporal_neighbor_point
    current_shading_point current_normal
    render_data.render_settings.restir_di_settings.plane_distance_threshold
  let normal_similarity_passed := normal_similarity_heuristic current_normal
    (render_data.g_buffer.shading_normals neighbor_index)
    render_data.render_settings.restir_di_settings.normal_similarity_angle_precomp
  let roughness_similarity_passed := roughness_similarity_heuristic
    temporal_neighbor_roughness current_material_roughness
    render_data.render_settings.restir_di_settings.roughness_similarity_threshold
  plane_distance_passed && normal_similarity_passed && roughness_similarity_passed

/-- Transcription of claim C4's reading of the similarity gates, for
comparison with `check_similarity_heuristics`: the projected distance
*does not exceed* the threshold (≤), the normals' dot product *does not
fall below* the cosine threshold (≥), the roughness difference *does not
exceed* the threshold (≤). -/
def check_similarity_heuristics_claim (render_data : HIPRTRenderData)
    (neighbor_index center_pixel_index : Int)
    (current_shading_point current_normal : Float3) : Prop :=
  let temporal_neighbor_point := render_data.g_buffer.first_hits neighbor_index
  |hipptDot (temporal_neighbor_point.sub current_shading_point) current_normal| ≤
    render_data.render_settings.restir_di_settings.plane_distance_threshold ∧
  hipptDot current_normal (render_data.g_buffer.shading_normals neighbor_index) ≥
    render_data.render_settings.restir_di_settings.normal_similarity_angle_precomp ∧
  |(render_data.g_buffer.materials neighbor_index).roughness -
      (render_data.g_buffer.materials center_pixel_index).roughness| ≤
    render_data.render_settings.restir_di_settings.roughness_similarity_threshold

instance (render_data : HIPRTRenderData) (neighbor_index center_pixel_index : Int)
    (current_shading_point current_normal : Float3) :
    Decidable (check_similarity_heuristics_claim render_data neighbor_index
      center_pixel_index current_shading_point current_normal) := by
  unfold check_similarity_heuristics_claim
  infer_instance

/-- TEMPORAL_NEIGHBOR_ID — by convention the temporal neighbor is neighbor 0. -/
def TEMPORAL_NEIGHBOR_ID : Int := 0

/-- INITIAL_CANDIDATES_ID — the initial-candidates reservoir is neighbor 1. -/
def INITIAL_CANDIDATES_ID : Int := 1

/-- ReSTIRDITemporalResamplingMISWeight\<RESTIR_DI_BIAS_CORRECTION_1_OVER_M\>
::get_resampling_MIS_weight (TemporalMISWeight.h, lines 39–54): returns the
confidence `M` of the reservoir being resampled.  The RNG argument is
carried, as in the C++ signature, but unused. -/
def get_resampling_MIS_weight_1_OVER_M (_useVisibility : Bool) (_sqrt : ℚ → ℚ)
    (_render_data : HIPRTRenderData) (reservoir_being_resampled : ReSTIRDIReservoir)
    (_temporal_neighbor_surface _center_pixel_surface : ReSTIRDISurface)
    (_initial_candidates_reservoir_M _temporal_neighbor_reservoir_M : Int)
    (_current_neighbor : Int) (_random_number_generator : Xorshift32State) : ℚ :=
  (reservoir_being_resampled.M : ℚ)

/-- ReSTIRDITemporalResamplingMISWeight\<RESTIR_DI_BIAS_CORRECTION_1_OVER_Z\>
::get_resampling_MIS_weight (TemporalMISWeight.h, lines 56–72): returns the
confidence `M` of the reservoir being resampled (normalization differs
instead). -/
def get_resampling_MIS_weight_1_OVER_Z (_useVisibility : Bool) (_sqrt : ℚ → ℚ)
    (_render_data : HIPRTRenderData) (reservoir_being_resampled : ReSTIRDIReservoir)
    (_temporal_neighbor_surface _center_pixel_surface : ReSTIRDISurface)
    (_initial_candidates_reservoir_M _temporal_neighbor_reservoir_M : Int)
    (_current_neighbor : Int) (_random_number_generator : Xorshift32State) : ℚ :=
  (reservoir_being_resampled.M : ℚ)

/-- ReSTIRDITemporalResamplingMISWeight\<RESTIR_DI_BIAS_CORRECTION_MIS_GBH\>
::get_resampling_MIS_weight (TemporalMISWeight.h, lines 120–164):
generalized balance heuristic without confidence weights. -/
def get_resampling_MIS_weight_MIS_GBH (useVisibility : Bool) (sqrt : ℚ → ℚ)
    (render_data : HIPRTRenderData) (reservoir_being_resampled : ReSTIRDIReservoir)
    (temporal_neighbor_surface center_pixel_surface : ReSTIRDISurface)
    (_initial_candidates_reservoir_M temporal_neighbor_reservoir_M : Int)
    (current_neighbor : Int) (_random_number_generator : Xorshift32State) : ℚ :=
  -- Only computing the target function if we do have a temporal neighbor
  let target_function_at_temporal_neighbor :=
    if temporal_neighbor_reservoir_M ≠ 0 then
      ReSTIR_DI_evaluate_target_function useVisibility sqrt render_data
        reservoir_being_resampled.sample temporal_neighbor_surface
    else 0
  if current_neighbor = TEMPORAL_NEIGHBOR_ID ∧
      target_function_at_temporal_neighbor = 0 then
    -- zero numerator for the temporal neighbor: 0 MIS weight without
    -- computing anything else
    0
  else
    let target_function_at_center :=
      ReSTIR_DI_evaluate_target_function useVisibility sqrt render_data
        reservoir_being_resampled.sample center_pixel_surface
    let denom := target_function_at_temporal_neighbor + target_function_at_center
    let nume :=
      if current_neighbor = TEMPORAL_NEIGHBOR_ID then
        target_function_at_temporal_neighbor
      else
        target_function_at_center
    if denom = 0 then 0 else nume / denom

/-- ReSTIRDITemporalResamplingMISWeight
\<RESTIR_DI_BIAS_CORRECTION_MIS_GBH_CONFIDENCE_WEIGHTS\>
::get_resampling_MIS_weight (TemporalMISWeight.h, lines 166–210):
generalized balance heuristic with every term scaled by its neighbor's M. -/
def get_resampling_MIS_weight_MIS_GBH_CONFIDENCE_WEIGHTS (useVisibility : Bool)
    (sqrt : ℚ → ℚ) (render_data : HIPRTRenderData)
    (reservoir_being_resampled : ReSTIRDIReservoir)
    (temporal_neighbor_surface center_pixel_surface : ReSTIRDISurface)
    (initial_candidates_reservoir_M temporal_neighbor_reservoir_M : Int)
    (current_neighbor : Int) (_random_number_generator : Xorshift32State) : ℚ :=
  let target_function_at_temporal_neighbor :=
    if temporal_neighbor_reservoir_M ≠ 0 then
      ReSTIR_DI_evaluate_target_function useVisibility sqrt render_data
        reservoir_being_resampled.sample temporal_neighbor_surface
    else 0
  if current_neighbor = TEMPORAL_NEIGHBOR_ID ∧
      target_function_at_temporal_neighbor = 0 then
    0
  else
    let target_function_at_center :=
      ReSTIR_DI_evaluate_target_function useVisibility sqrt render_data
        reservoir_being_resampled.sample center_pixel_surface
    let denom := target_function_at_temporal_neighbor * (temporal_neighbor_reservoir_M : ℚ)
      + target_function_at_center * (initial_candidates_reservoir_M : ℚ)
    let nume :=
      if current_neighbor = TEMPORAL_NEIGHBOR_ID then
        target_function_at_temporal_neighbor * (temporal_neighbor_reservoir_M : ℚ)
      else
        target_function_at_center * (initial_candidates_reservoir_M : ℚ)
    if denom = 0 then 0 else nume / denom

/-- ReSTIRDITemporalNormalizationWeight\<RESTIR_DI_BIAS_CORRECTION_1_OVER_M\>
::get_normalization (TemporalNormalizationWeight.h, lines 38–66).  The two
out-parameters are returned as a pair (numerator, denominator). -/
def get_normalization_1_OVER_M (_useVisibility : Bool) (_sqrt : ℚ → ℚ)
    (_render_data : HIPRTRenderData) (reservoir : ReSTIRDIReservoir)
    (initial_candidates_M temporal_neighbor_M : Int)
    (_center_pixel_surface _temporal_neighbor_surface : ReSTIRDISurface)
    (_selected_neighbor _center_pixel_index _temporal_neighbor_pixel_index : Int)
    (_random_number_generator : Xorshift32State) : ℚ × ℚ :=
  if reservoir.weight_sum ≤ 0 then
    -- Invalid reservoir, returning directly
    (1, 1)
  else
    (1, (initial_candidates_M : ℚ) + (temporal_neighbor_M : ℚ))

/-- ReSTIRDITemporalNormalizationWeight\<RESTIR_DI_BIAS_CORRECTION_1_OVER_Z\>
::get_normalization (TemporalNormalizationWeight.h, lines 68–114). -/
def get_normalization_1_OVER_Z (useVisibility : Bool) (sqrt : ℚ → ℚ)
    (render_data : HIPRTRenderData) (reservoir : ReSTIRDIReservoir)
    (initial_candidates_M temporal_neighbor_M : Int)
    (center_pixel_surface temporal_neighbor_surface : ReSTIRDISurface)
    (_selected_neighbor _center_pixel_index _temporal_neighbor_pixel_index : Int)
    (_random_number_generator : Xorshift32State) : ℚ × ℚ :=
  if reservoir.weight_sum ≤ 0 then
    -- Invalid reservoir, returning directly
    (1, 1)
  else
    -- Count the confidence of the neighbors that could have produced the
    -- retained sample (target function > 0 with that sample)
    let center_pixel_target_function :=
      ReSTIR_DI_evaluate_target_function useVisibility sqrt render_data
        reservoir.sample center_pixel_surface
    let denom0 : ℚ :=
      (if center_pixel_target_function > 0 then 1 else 0) * (initial_candidates_M : ℚ)
    let denom :=
      if temporal_neighbor_M > 0 then
        let temporal_neighbor_target_function :=
          ReSTIR_DI_evaluate_target_function useVisibility sqrt render_data
            reservoir.sample temporal_neighbor_surface
        denom0 +
          (if temporal_neighbor_target_function > 0 then 1 else 0) * (temporal_neighbor_M : ℚ)
      else denom0
    (1, denom)

/-- ReSTIRDITemporalNormalizationWeight\<RESTIR_DI_BIAS_CORRECTION_MIS_LIKE\>
::get_normalization (TemporalNormalizationWeight.h, lines 120–162). -/
def get_normalization_MIS_LIKE (useVisibility : Bool) (sqrt : ℚ → ℚ)
    (render_data : HIPRTRenderData) (reservoir : ReSTIRDIReservoir)
    (_initial_candidates_M temporal_neighbor_M : Int)
    (center_pixel_surface temporal_neighbor_surface : ReSTIRDISurface)
    (selected_neighbor _center_pixel_index _temporal_neighbor_pixel_index : Int)
    (_random_number_generator : Xorshift32State) : ℚ × ℚ :=
  if reservoir.weight_sum ≤ 0 then
    -- Invalid/empty reservoir, returning directly
    (1, 1)
  else
    let center_pixel_target_function :=
      ReSTIR_DI_evaluate_target_function useVisibility sqrt render_data
        reservoir.sample center_pixel_surface
    let temporal_neighbor_target_function :=
      if temporal_neighbor_M > 0 then
        ReSTIR_DI_evaluate_target_function useVisibility sqrt render_data
          reservoir.sample temporal_neighbor_surface
      else 0
    let nume :=
      if selected_neighbor = INITIAL_CANDIDATES_ID then
        center_pixel_target_function
      else
        temporal_neighbor_target_function
    (nume, center_pixel_target_function + temporal_neighbor_target_function)

/-- ReSTIRDITemporalNormalizationWeight
\<RESTIR_DI_BIAS_CORRECTION_MIS_LIKE_CONFIDENCE_WEIGHTS\>::get_normalization
(TemporalNormalizationWeight.h, lines 164–206). -/
def get_normalization_MIS_LIKE_CONFIDENCE_WEIGHTS (useVisibility : Bool)
    (sqrt : ℚ → ℚ) (render_data : HIPRTRenderData) (reservoir : ReSTIRDIReservoir)
    (initial_candidates_M temporal_neighbor_M : Int)
    (center_pixel_surface temporal_neighbor_surface : ReSTIRDISurface)
    (selected_neighbor _center_pixel_index _temporal_neighbor_pixel_index : Int)
    (_random_number_generator : Xorshift32State) : ℚ × ℚ :=
  if reservoir.weight_sum ≤ 0 then
    -- Invalid reservoir, returning directly
    (1, 1)
  else
    let center_pixel_target_function :=
      ReSTIR_DI_evaluate_target_function useVisibility sqrt render_data
        reservoir.sample center_pixel_surface
    let temporal_neighbor_target_function :=
      if temporal_neighbor_M > 0 then
        ReSTIR_DI_evaluate_target_function useVisibility sqrt render_data
          reservoir.sample temporal_neighbor_surface
      else 0
    let nume :=
      if selected_neighbor = INITIAL_CANDIDATES_ID then
        center_pixel_target_function
      else
        temporal_neighbor_target_function
    (nume, center_pixel_target_function * (initial_candidates_M : ℚ) +
      temporal_neighbor_target_function * (temporal_neighbor_M : ℚ))

/-- ReSTIRDITemporalNormalizationWeight\<RESTIR_DI_BIAS_CORRECTION_MIS_GBH\>
::get_normalization (TemporalNormalizationWeight.h, lines 212–228): nothing
left to normalize, numerator = denominator = 1 unconditionally. -/
def get_normalization_MIS_GBH (_useVisibility : Bool) (_sqrt : ℚ → ℚ)
    (_render_data : HIPRTRenderData) (_reservoir : ReSTIRDIReservoir)
    (_initial_candidates_M _temporal_neighbor_M : Int)
    (_center_pixel_surface _temporal_neighbor_surface : ReSTIRDISurface)
    (_selected_neighbor _center_pixel_index _temporal_neighbor_pixel_index : Int)
    (_random_number_generator : Xorshift32State) : ℚ × ℚ :=
  (1, 1)

/-- ReSTIRDITemporalNormalizationWeight
\<RESTIR_DI_BIAS_CORRECTION_MIS_GBH_CONFIDENCE_WEIGHTS\>::get_normalization
(TemporalNormalizationWeight.h, lines 230–246): numerator = denominator = 1
unconditionally. -/
def get_normalization_MIS_GBH_CONFIDENCE_WEIGHTS (_useVisibility : Bool)
    (_sqrt : ℚ → ℚ) (_render_data : HIPRTRenderData) (_reservoir : ReSTIRDIReservoir)
    (_initial_candidates_M _temporal_neighbor_M : Int)
    (_center_pixel_surface _temporal_neighbor_surface : ReSTIRDISurface)
    (_selected_neighbor _center_pixel_index _temporal_neighbor_pixel_index : Int)
    (_random_number_generator : Xorshift32State) : ℚ × ℚ :=
  (1, 1)

/-- The two temporally-resampled neighbors as the 1/Z normalization claim
describes them: the initial candidates evaluated at the center surface,
always, and the temporal neighbor when its `M > 0`.  Each entry pairs the
target function of the final retained sample at that neighbor's surface
with that neighbor's `M`. -/
def oneOverZ_resampled_neighbors (useVisibility : Bool) (sqrt : ℚ → ℚ)
    (render_data : HIPRTRenderData) (reservoir : ReSTIRDIReservoir)
    (initial_candidates_M temporal_neighbor_M : Int)
    (center_pixel_surface temporal_neighbor_surface : ReSTIRDISurface) :
    List (ℚ × Int) :=
  (ReSTIR_DI_evaluate_target_function useVisibility sqrt render_data
      reservoir.sample center_pixel_surface, initial_candidates_M) ::
    (if temporal_neighbor_M > 0 then
      [(ReSTIR_DI_evaluate_target_function useVisibility sqrt render_data
          reservoir.sample temporal_neighbor_surface, temporal_neighbor_M)]
    else [])

/-- The 1/Z denominator as the spec words it: the sum, over the resampled
neighbors whose target function at the final retained sample is positive,
of that neighbor's `M`. -/
def oneOverZ_denominator_spec (useVisibility : Bool) (sqrt : ℚ → ℚ)
    (render_data : HIPRTRenderData) (reservoir : ReSTIRDIReservoir)
    (initial_candidates_M temporal_neighbor_M : Int)
    (center_pixel_surface temporal_neighbor_surface : ReSTIRDISurface) : ℚ :=
  (((oneOverZ_resampled_neighbors useVisibility sqrt render_data reservoir
      initial_candidates_M temporal_neighbor_M center_pixel_surface
      temporal_neighbor_surface).filter (fun p => 0 < p.1)).map
    (fun p => (p.2 : ℚ))).sum

/-- Uninterpreted square root used for concrete evaluations: constantly 1. -/
def exSqrt : ℚ → ℚ := fun _ => 1

/-- Concrete material: unit emission, zero roughness. -/
def exMaterial : RendererMaterial := ⟨⟨1, 1, 1⟩, 0⟩

/-- Concrete render data for evaluations: geometry term disabled,
plane-distance threshold 1, normal cosine threshold 1/2, roughness
threshold 1/4; G-buffer constant (point (0,0,1), normal (0,0,1)); constant
unit-colour BSDF oracle; shadow rays never hit. -/
def exRenderData : HIPRTRenderData where
  render_settings := ⟨⟨⟨false⟩, 1, 1 / 2, 1 / 4⟩⟩
  g_buffer := ⟨fun _ => ⟨0, 0, 1⟩, fun _ => ⟨0, 0, 1⟩, fun _ => exMaterial⟩
  buffers := ⟨fun _ => 0, fun _ => exMaterial⟩
  triangle_normal := fun _ => ⟨0, 0, 1⟩
  bsdf_eval := fun _ _ _ _ _ _ => (⟨1, 1, 1⟩, 1)
  shadow_ray_hit := fun _ _ _ => false

/-- Concrete light sample on triangle 0 at point (0,0,1). -/
def exSample : ReSTIRDISample := ⟨0, ⟨0, 0, 1⟩⟩

/-- Concrete "no sample" sentinel light sample. -/
def exSampleNone : ReSTIRDISample := ⟨-1, ⟨0, 0, 0⟩⟩

/-- Concrete surface at the origin, normal and view direction (0,0,1). -/
def exSurface : ReSTIRDISurface := ⟨⟨0, 0, 0⟩, ⟨0, 0, 1⟩, ⟨0, 0, 1⟩, exMaterial, ⟨0⟩⟩

/-- Concrete valid reservoir (weight_sum 1, M 3) holding `exSample`. -/
def exReservoir : ReSTIRDIReservoir := ⟨exSample, 1, 3⟩

/-- Concrete invalid reservoir (weight_sum 0). -/
def exReservoirInvalid : ReSTIRDIReservoir := ⟨exSample, 0, 3⟩

/-- Concrete reservoir whose sample sits at (0,0,2), for the Jacobian
evaluations. -/
def exReservoirJac : ReSTIRDIReservoir := ⟨⟨0, ⟨0, 0, 2⟩⟩, 1, 1⟩

/-- Concrete RNG state (the default seed 42). -/
def exRng : Xorshift32State := ⟨42⟩

/-- C10: seeding `Xorshift32Generator` with 0 makes 0 a fixed point — after
any number of `xorshift32()` calls the state is still 0, the value returned
by the next call is 0, and `operator()` yields 0.0 forever. -/
theorem xorshift32_zero_fixed_point (n : Nat) :
    xorshift32^[n] ⟨0⟩ = (⟨0⟩ : Xorshift32State) ∧
      xorshift32Call (xorshift32^[n] ⟨0⟩) = (0, (⟨0⟩ : Xorshift32State)) := by
  have hstep : xorshift32 ⟨0⟩ = (⟨0⟩ : Xorshift32State) := by decide
  have hiter : xorshift32^[n] ⟨0⟩ = (⟨0⟩ : Xorshift32State) := by
    induction n with
    | zero => rfl
    | succ k ih => rw [Function.iterate_succ_apply', ih, hstep]
  refine ⟨hiter, ?_⟩
  rw [hiter]
  have hcall : xorshift32Call ⟨0⟩ = (0, (⟨0⟩ : Xorshift32State)) := by
    unfold xorshift32Call
    rw [hstep]
    norm_num
  exact hcall

/-- C10 witness: after three calls from seed 0 the state is 0 and
`operator()` returns 0. -/
theorem xorshift32_zero_fixed_point_witness :
    xorshift32^[3] ⟨0⟩ = (⟨0⟩ : Xorshift32State) ∧
      xorshift32Call (xorshift32^[3] ⟨0⟩) = (0, (⟨0⟩ : Xorshift32State)) :=
  xorshift32_zero_fixed_point 3

/-- C5: the 1/M and 1/Z resampling MIS-weight policies compute the
identical value — the confidence `M` of the reservoir being resampled —
independently of the random number generator state. -/
theorem resampling_MIS_weight_1_over_M_eq_1_over_Z (useVis : Bool)
    (sqrt : ℚ → ℚ) (rd : HIPRTRenderData) (res : ReSTIRDIReservoir)
    (tns cps : ReSTIRDISurface) (iM tM cn : Int) (rng rng' : Xorshift32State) :
    get_resampling_MIS_weight_1_OVER_M useVis sqrt rd res tns cps iM tM cn rng =
      get_resampling_MIS_weight_1_OVER_Z useVis sqrt rd res tns cps iM tM cn rng' ∧
    get_resampling_MIS_weight_1_OVER_M useVis sqrt rd res tns cps iM tM cn rng =
      (res.M : ℚ) :=
  ⟨rfl, rfl⟩

/-- C2: for every one of the six bias-correction modes, an invalid/empty
combined reservoir (`weight_sum ≤ 0`) makes `get_normalization` produce
numerator = denominator = 1 (a no-op scale on the weight sum). -/
theorem get_normalization_invalid_reservoir_noop (useVis : Bool)
    (sqrt : ℚ → ℚ) (rd : HIPRTRenderData) (res : ReSTIRDIReservoir)
    (iM tM : Int) (cps tns : ReSTIRDISurface) (sel cpi tnpi : Int)
    (rng : Xorshift32State) (h : res.weight_sum ≤ 0) :
    get_normalization_1_OVER_M useVis sqrt rd res iM tM cps tns sel cpi tnpi rng = (1, 1) ∧
    get_normalization_1_OVER_Z useVis sqrt rd res iM tM cps tns sel cpi tnpi rng = (1, 1) ∧
    get_normalization_MIS_LIKE useVis sqrt rd res iM tM cps tns sel cpi tnpi rng = (1, 1) ∧
    get_normalization_MIS_LIKE_CONFIDENCE_WEIGHTS useVis sqrt rd res iM tM cps tns sel cpi tnpi rng = (1, 1) ∧
    get_normalization_MIS_GBH useVis sqrt rd res iM tM cps tns sel cpi tnpi rng = (1, 1) ∧
    get_normalization_MIS_GBH_CONFIDENCE_WEIGHTS useVis sqrt rd res iM tM cps tns sel cpi tnpi rng = (1, 1) := by
  refine ⟨?_, ?_, ?_, ?_, rfl, rfl⟩ <;>
    simp only [get_normalization_1_OVER_M, get_normalization_1_OVER_Z,
      get_normalization_MIS_LIKE, get_normalization_MIS_LIKE_CONFIDENCE_WEIGHTS,
      if_pos h]

/-- C2 witness: at a concrete reservoir with `weight_sum = 0` every one of
the six normalization policies yields (1, 1). -/
theorem get_normalization_invalid_reservoir_noop_witness :
    get_normalization_1_OVER_M true exSqrt exRenderData exReservoirInvalid 1 1
        exSurface exSurface 1 0 0 exRng = (1, 1) ∧
    get_normalization_1_OVER_Z true exSqrt exRenderData exReservoirInvalid 1 1
        exSurface exSurface 1 0 0 exRng = (1, 1) ∧
    get_normalization_MIS_LIKE true exSqrt exRenderData exReservoirInvalid 1 1
        exSurface exSurface 1 0 0 exRng = (1, 1) ∧
    get_normalization_MIS_LIKE_CONFIDENCE_WEIGHTS true exSqrt exRenderData
        exReservoirInvalid 1 1 exSurface exSurface 1 0 0 exRng = (1, 1) ∧
    get_normalization_MIS_GBH true exSqrt exRenderData exReservoirInvalid 1 1
        exSurface exSurface 1 0 0 exRng = (1, 1) ∧
    get_normalization_MIS_GBH_CONFIDENCE_WEIGHTS true exSqrt exRenderData
        exReservoirInvalid 1 1 exSurface exSurface 1 0 0 exRng = (1, 1) :=
  get_normalization_invalid_reservoir_noop true exSqrt exRenderData
    exReservoirInvalid 1 1 exSurface exSurface 1 0 0 exRng (by norm_num [exReservoirInvalid])

/-- C7: a light sample carrying the sentinel index −1 ("no sample") makes
both target-function variants return 0 immediately; since the render data —
and with it the BSDF and shadow-ray oracles — is universally quantified,
the result does not depend on those collaborators at all, i.e. no BSDF
evaluation and no visibility query can influence it. -/
theorem target_function_no_sample_returns_zero (sqrt : ℚ → ℚ)
    (rd : HIPRTRenderData) (sample : ReSTIRDISample) (surface : ReSTIRDISurface)
    (h : sample.emissive_triangle_index = -1) :
    ReSTIR_DI_evaluate_target_function_noVis sqrt rd sample surface = 0 ∧
    ReSTIR_DI_evaluate_target_function_withVis sqrt rd sample surface = 0 := by
  constructor <;>
    simp only [ReSTIR_DI_evaluate_target_function_noVis,
      ReSTIR_DI_evaluate_target_function_withVis, if_pos h]

/-- C7 witness: at the concrete sentinel sample both variants evaluate
to 0. -/
theorem target_function_no_sample_returns_zero_witness :
    ReSTIR_DI_evaluate_target_function_noVis exSqrt exRenderData exSampleNone
        exSurface = 0 ∧
    ReSTIR_DI_evaluate_target_function_withVis exSqrt exRenderData exSampleNone
        exSurface = 0 :=
  target_function_no_sample_returns_zero exSqrt exRenderData exSampleNone
    exSurface (by norm_num [exSampleNone])

/-- C1 counterexample: with the MIS-GBH policy (no confidence weights), the
neighbor contributing to the numerator is the initial-candidates neighbor
(`current_neighbor = INITIAL_CANDIDATES_ID`) and its `M` is 0, yet the
returned MIS weight is not 0 (it is 1 here): the code never checks the
initial-candidates `M`, only the temporal neighbor's. -/
theorem MIS_GBH_resampling_weight_zero_M_numerator_counterexample :
    get_resampling_MIS_weight_MIS_GBH false exSqrt exRenderData exReservoir
      exSurface exSurface 0 0 INITIAL_CANDIDATES_ID exRng ≠ 0 := by
  norm_num [get_resampling_MIS_weight_MIS_GBH, ReSTIR_DI_evaluate_target_function,
    ReSTIR_DI_evaluate_target_function_noVis, INITIAL_CANDIDATES_ID,
    TEMPORAL_NEIGHBOR_ID, exSqrt, exRenderData, exReservoir, exSample, exSurface,
    exMaterial, hipptLength, hipptDot, hipptNormalize, Float3.sub, Float3.sdiv,
    ColorRGB32F.mul, ColorRGB32F.smul, ColorRGB32F.luminance]

/-- C1 (amended): the MIS-GBH resampling MIS weight (without confidence
weights) is 0 whenever the numerator neighbor is the *temporal* neighbor
and its gated target function — the target function of the resampled
sample at the temporal neighbor surface, taken as 0 when the temporal `M`
is 0 — is 0 (in particular whenever the temporal `M` is 0), and whenever
the denominator — that gated target function plus the target function at
the center surface — is 0. -/
theorem MIS_GBH_resampling_weight_zero_conditions (useVis : Bool)
    (sqrt : ℚ → ℚ) (rd : HIPRTRenderData) (res : ReSTIRDIReservoir)
    (tns cps : ReSTIRDISurface) (iM tM cn : Int) (rng : Xorshift32State)
    (h : (cn = TEMPORAL_NEIGHBOR_ID ∧
      (if tM ≠ 0 then
        ReSTIR_DI_evaluate_target_function useVis sqrt rd res.sample tns
      else 0) = 0) ∨
      (if tM ≠ 0 then
        ReSTIR_DI_evaluate_target_function useVis sqrt rd res.sample tns
      else 0) +
        ReSTIR_DI_evaluate_target_function useVis sqrt rd res.sample cps = 0) :
    get_resampling_MIS_weight_MIS_GBH useVis sqrt rd res tns cps iM tM cn rng
      = 0 := by
  unfold get_resampling_MIS_weight_MIS_GBH
  rcases h with ⟨hcn, htf⟩ | hdenom
  · split_ifs <;> simp_all
  · split_ifs <;> simp_all

/-- C1 witness: at a concrete input where the temporal neighbor is the
numerator neighbor and its `M` is 0 (hence its gated target function
is 0), the MIS-GBH weight is 0. -/
theorem MIS_GBH_resampling_weight_zero_conditions_witness :
    get_resampling_MIS_weight_MIS_GBH false exSqrt exRenderData exReservoir
      exSurface exSurface 1 0 TEMPORAL_NEIGHBOR_ID exRng = 0 :=
  MIS_GBH_resampling_weight_zero_conditions false exSqrt exRenderData
    exReservoir exSurface exSurface 1 0 TEMPORAL_NEIGHBOR_ID exRng
    (Or.inl ⟨rfl, by norm_num⟩)

/-- C6: with the 1/Z policy and a valid reservoir (`weight_sum > 0`),
`get_normalization` returns numerator 1 and, as denominator, the sum of the
`M` values of exactly those resampled neighbors (initial candidates at the
center surface, plus the temporal neighbor when its `M > 0`) whose target
function at the final retained sample is positive. -/
theorem get_normalization_1_over_Z_formula (useVis : Bool) (sqrt : ℚ → ℚ)
    (rd : HIPRTRenderData) (res : ReSTIRDIReservoir) (iM tM : Int)
    (cps tns : ReSTIRDISurface) (sel cpi tnpi : Int) (rng : Xorshift32State)
    (h : 0 < res.weight_sum) :
    get_normalization_1_OVER_Z useVis sqrt rd res iM tM cps tns sel cpi tnpi rng =
      (1, oneOverZ_denominator_spec useVis sqrt rd res iM tM cps tns) := by
  unfold get_normalization_1_OVER_Z oneOverZ_denominator_spec
    oneOverZ_resampled_neighbors
  rw [if_neg (not_le.mpr h)]
  split_ifs with htM <;>
    by_cases hc : 0 < ReSTIR_DI_evaluate_target_function useVis sqrt rd
      res.sample cps <;>
    by_cases ht : 0 < ReSTIR_DI_evaluate_target_function useVis sqrt rd
      res.sample tns <;>
    simp_all [List.filter_cons, List.filter_nil, List.sum_cons, List.sum_nil] <;>
    rw [if_neg (not_lt.mpr hc), if_neg (not_lt.mpr ht)] <;> ring

/-- C6 witness: at a concrete valid reservoir with both neighbors able to
produce the retained sample, the 1/Z normalization matches the spec-side
denominator (here 5 + 3 = 8). -/
theorem get_normalization_1_over_Z_formula_witness :
    get_normalization_1_OVER_Z false exSqrt exRenderData exReservoir 5 3
        exSurface exSurface 1 0 0 exRng =
      (1, oneOverZ_denominator_spec false exSqrt exRenderData exReservoir 5 3
        exSurface exSurface) :=
  get_normalization_1_over_Z_formula false exSqrt exRenderData exReservoir 5 3
    exSurface exSurface 1 0 0 exRng (by decide)

/-- C3: the reconnection-shift Jacobian function returns either the
sentinel −1 or the computed Jacobian, the latter always inside the clamp
range [1/20, 20]; the sentinel is returned exactly when the computed ratio
is above 20, below 1/20, or NaN (in this exact rational model `isNaN` is
identically false, and every value is finite, so the function never
produces a NaN or infinite result). -/
theorem get_jacobian_sentinel_or_clamped (sqrt : ℚ → ℚ)
    (rd : HIPRTRenderData) (nres : ReSTIRDIReservoir) (cp np : Float3) :
    (get_jacobian_determinant_reconnection_shift sqrt rd nres cp np = -1 ∨
      (1 / 20 ≤ get_jacobian_determinant_reconnection_shift sqrt rd nres cp np ∧
        get_jacobian_determinant_reconnection_shift sqrt rd nres cp np ≤ 20)) ∧
    (get_jacobian_determinant_reconnection_shift sqrt rd nres cp np = -1 ↔
      (20 < jacobian_reconnection_shift_raw sqrt rd nres cp np ∨
        jacobian_reconnection_shift_raw sqrt rd nres cp np < 1 / 20 ∨
        hipptIsNaN (jacobian_reconnection_shift_raw sqrt rd nres cp np) = true)) := by
  have heq : get_jacobian_determinant_reconnection_shift sqrt rd nres cp np =
      if 20 < jacobian_reconnection_shift_raw sqrt rd nres cp np ∨
          jacobian_reconnection_shift_raw sqrt rd nres cp np < 1 / 20 then -1
      else jacobian_reconnection_shift_raw sqrt rd nres cp np := by
    unfold get_jacobian_determinant_reconnection_shift
    simp [hipptIsNaN]
  set j := jacobian_reconnection_shift_raw sqrt rd nres cp np with hj
  rw [heq]
  by_cases hcond : 20 < j ∨ j < 1 / 20
  · rw [if_pos hcond]
    refine ⟨Or.inl rfl, iff_of_true rfl ?_⟩
    exact hcond.elim (fun hg => Or.inl hg) (fun hg => Or.inr (Or.inl hg))
  · rw [if_neg hcond]
    push_neg at hcond
    obtain ⟨h1, h2⟩ := hcond
    refine ⟨Or.inr ⟨h2, h1⟩, ?_, ?_⟩
    · intro hcontra
      exfalso
      rw [hcontra] at h2
      norm_num at h2
    · rintro (hr | hr | hr)
      · exact absurd hr (not_lt.mpr h1)
      · exact absurd hr (not_lt.mpr h2)
      · exact absurd hr (by simp [hipptIsNaN])

/-- C4 counterexample: at a concrete input sitting exactly on the
plane-distance threshold (projected distance = threshold = 1), the claim's
non-strict reading of the three gates accepts the neighbor while
`check_similarity_heuristics` rejects it (the code compares strictly). -/
theorem check_similarity_heuristics_boundary_counterexample :
    check_similarity_heuristics_claim exRenderData 0 0 ⟨0, 0, 0⟩ ⟨0, 0, 1⟩ ∧
      check_similarity_heuristics exRenderData 0 0 ⟨0, 0, 0⟩ ⟨0, 0, 1⟩ = false := by
  constructor
  · refine ⟨?_, ?_, ?_⟩ <;>
      norm_num [check_similarity_heuristics_claim, exRenderData, exMaterial,
        hipptDot, Float3.sub]
  · norm_num [check_similarity_heuristics, plane_distance_heuristic,
      normal_similarity_heuristic, roughness_similarity_heuristic,
      exRenderData, exMaterial, hipptDot, Float3.sub]

/-- C4 (amended): `check_similarity_heuristics` returns true iff the
absolute projection of the vector between the two shading points onto the
current normal is *strictly below* the plane-distance threshold, the dot
product of the two shading normals is *strictly above* the cosine
threshold, and the absolute roughness difference is *strictly below* the
roughness threshold; in particular a neighbor normal rotated beyond the
angle threshold (dot product not above the precomputed cosine) makes it
return false. -/
theorem check_similarity_heuristics_iff (rd : HIPRTRenderData) (ni ci : Int)
    (p n : Float3) :
    check_similarity_heuristics rd ni ci p n = true ↔
      (|hipptDot ((rd.g_buffer.first_hits ni).sub p) n| <
          rd.render_settings.restir_di_settings.plane_distance_threshold ∧
        rd.render_settings.restir_di_settings.normal_similarity_angle_precomp <
          hipptDot n (rd.g_buffer.shading_normals ni) ∧
        |(rd.g_buffer.materials ni).roughness -
            (rd.g_buffer.materials ci).roughness| <
          rd.render_settings.restir_di_settings.roughness_similarity_threshold) := by
  simp [check_similarity_heuristics, plane_distance_heuristic,
    normal_similarity_heuristic, roughness_similarity_heuristic, and_assoc]


/-- The raw Jacobian is the cosine ratio times the squared-distance ratio
of the two shading points. -/
theorem jacobian_raw_eq (sqrt : ℚ → ℚ) (rd : HIPRTRenderData)
    (nres : ReSTIRDIReservoir) (cp np : Float3) :
    jacobian_reconnection_shift_raw sqrt rd nres cp np =
      (jacobian_cosine_at sqrt rd nres cp / jacobian_cosine_at sqrt rd nres np) *
        (jacobian_distance_to_light sqrt nres np * jacobian_distance_to_light sqrt nres np /
          (jacobian_distance_to_light sqrt nres cp * jacobian_distance_to_light sqrt nres cp)) := by
  unfold jacobian_reconnection_shift_raw jacobian_cosine_at jacobian_distance_to_light
  rfl

/-- The clamp-or-reject step of the Jacobian function, with the vacuous
NaN disjunct of the rational model removed. -/
theorem get_jacobian_eq_clamp (sqrt : ℚ → ℚ) (rd : HIPRTRenderData)
    (nres : ReSTIRDIReservoir) (cp np : Float3) :
    get_jacobian_determinant_reconnection_shift sqrt rd nres cp np =
      if 20 < jacobian_reconnection_shift_raw sqrt rd nres cp np ∨
          jacobian_reconnection_shift_raw sqrt rd nres cp np < 1 / 20 then -1
      else jacobian_reconnection_shift_raw sqrt rd nres cp np := by
  unfold get_jacobian_determinant_reconnection_shift
  simp [hipptIsNaN]

/-- A product of reciprocal rationals stays positive on the second factor. -/
theorem pos_of_mul_eq_one_pos (x y : ℚ) (hxy : x * y = 1) (hx : 0 < x) :
    0 < y := by
  rcases lt_trichotomy y 0 with h | h | h
  · exfalso
    have := mul_neg_of_pos_of_neg hx h
    rw [hxy] at this
    norm_num at this
  · exfalso
    rw [h, mul_zero] at hxy
    norm_num at hxy
  · exact h

/-- The symmetric clamp [1/20, 20] respects reciprocal pairs: if two
rationals multiply to 1, the clamp-or-sentinel results also multiply
to 1 (either both values are inside the range, or both are replaced
by −1). -/
theorem rat_clamp_pair (x y : ℚ) (hxy : x * y = 1) :
    (if 20 < x ∨ x < 1 / 20 then (-1 : ℚ) else x) *
      (if 20 < y ∨ y < 1 / 20 then (-1 : ℚ) else y) = 1 := by
  have hx0 : x ≠ 0 := left_ne_zero_of_mul_eq_one hxy
  by_cases hx : 20 < x ∨ x < 1 / 20
  · have hy : 20 < y ∨ y < 1 / 20 := by
      rcases hx with hx | hx
      · right
        have hxpos : (0 : ℚ) < x := by linarith
        have hypos := pos_of_mul_eq_one_pos x y hxy hxpos
        nlinarith [mul_pos (show (0 : ℚ) < x - 20 by linarith) hypos]
      · rcases le_or_lt x 0 with hxle | hxpos
        · right
          have hxneg : x < 0 := lt_of_le_of_ne hxle hx0
          have hyneg : y < 0 := by
            rcases lt_trichotomy y 0 with h | h | h
            · exact h
            · exfalso
              rw [h, mul_zero] at hxy
              norm_num at hxy
            · exfalso
              have := mul_neg_of_neg_of_pos hxneg h
              rw [hxy] at this
              norm_num at this
          linarith
        · left
          have hypos := pos_of_mul_eq_one_pos x y hxy hxpos
          nlinarith [mul_pos (show (0 : ℚ) < 1 / 20 - x by linarith) hypos]
    rw [if_pos hx, if_pos hy]
    norm_num
  · have h1 : x ≤ 20 := not_lt.mp fun hc => hx (Or.inl hc)
    have h2 : 1 / 20 ≤ x := not_lt.mp fun hc => hx (Or.inr hc)
    have hxpos : (0 : ℚ) < x := by linarith
    have hypos := pos_of_mul_eq_one_pos x y hxy hxpos
    have hy : ¬(20 < y ∨ y < 1 / 20) := by
      push_neg
      constructor
      · nlinarith [mul_nonneg (show (0 : ℚ) ≤ x - 1 / 20 by linarith) hypos.le]
      · nlinarith [mul_nonneg (show (0 : ℚ) ≤ 20 - x by linarith) hypos.le]
    rw [if_neg hx, if_neg hy]
    exact hxy

/-- C8: with nonzero distances to the light sample and nonzero cosines at
the light for both shading points, the reconnection-shift Jacobian from A
to B and the one from B to A multiply to exactly 1 (the cosine ratio and
the squared-distance ratio each invert when the points swap roles; the
symmetric clamp sends reciprocal out-of-range pairs to −1 on both sides,
whose product is also 1). -/
theorem get_jacobian_reciprocal_product (sqrt : ℚ → ℚ)
    (rd : HIPRTRenderData) (nres : ReSTIRDIReservoir) (A B : Float3)
    (hdA : jacobian_distance_to_light sqrt nres A ≠ 0)
    (hdB : jacobian_distance_to_light sqrt nres B ≠ 0)
    (hcA : jacobian_cosine_at sqrt rd nres A ≠ 0)
    (hcB : jacobian_cosine_at sqrt rd nres B ≠ 0) :
    get_jacobian_determinant_reconnection_shift sqrt rd nres A B *
      get_jacobian_determinant_reconnection_shift sqrt rd nres B A = 1 := by
  have hprod : jacobian_reconnection_shift_raw sqrt rd nres A B *
      jacobian_reconnection_shift_raw sqrt rd nres B A = 1 := by
    rw [jacobian_raw_eq, jacobian_raw_eq]
    field_simp
  rw [get_jacobian_eq_clamp, get_jacobian_eq_clamp]
  exact rat_clamp_pair _ _ hprod

/-- C8 witness: with the light sample at (0,0,2), shading points (0,0,0)
and (0,0,1), and a concrete interpretation of `sqrt`, the two Jacobians
(here 2 and 1/2) multiply to 1. -/
theorem get_jacobian_reciprocal_product_witness :
    get_jacobian_determinant_reconnection_shift exSqrt exRenderData
        exReservoirJac ⟨0, 0, 0⟩ ⟨0, 0, 1⟩ *
      get_jacobian_determinant_reconnection_shift exSqrt exRenderData
        exReservoirJac ⟨0, 0, 1⟩ ⟨0, 0, 0⟩ = 1 :=
  get_jacobian_reciprocal_product exSqrt exRenderData exReservoirJac
    ⟨0, 0, 0⟩ ⟨0, 0, 1⟩
    (by norm_num [jacobian_distance_to_light, hipptLength, Float3.sub,
      exSqrt, exReservoirJac])
    (by norm_num [jacobian_distance_to_light, hipptLength, Float3.sub,
      exSqrt, exReservoirJac])
    (by norm_num [jacobian_cosine_at, jacobian_distance_to_light, hipptLength,
      hipptDot, hipptNormalize, Float3.sub, Float3.sdiv, Float3.neg,
      exSqrt, exRenderData, exReservoirJac])
    (by norm_num [jacobian_cosine_at, jacobian_distance_to_light, hipptLength,
      hipptDot, hipptNormalize, Float3.sub, Float3.sdiv, Float3.neg,
      exSqrt, exRenderData, exReservoirJac])

/-- Luminance of the target-function colour product is non-negative when
the BSDF colour and the emission are componentwise non-negative and the
cosine and geometry factors are non-negative. -/
theorem tf_core_nonneg (bc ec : ColorRGB32F) (cosq geo : ℚ)
    (hb : 0 ≤ bc.r ∧ 0 ≤ bc.g ∧ 0 ≤ bc.b)
    (he : 0 ≤ ec.r ∧ 0 ≤ ec.g ∧ 0 ≤ ec.b)
    (hcos : 0 ≤ cosq) (hgeo : 0 ≤ geo) :
    0 ≤ (((bc.mul ec).smul cosq).smul geo).luminance := by
  obtain ⟨hbr, hbg, hbb⟩ := hb
  obtain ⟨her, heg, heb⟩ := he
  simp only [ColorRGB32F.luminance, ColorRGB32F.mul, ColorRGB32F.smul]
  have h1 := mul_nonneg (mul_nonneg (mul_nonneg hbr her) hcos) hgeo
  have h2 := mul_nonneg (mul_nonneg (mul_nonneg hbg heg) hcos) hgeo
  have h3 := mul_nonneg (mul_nonneg (mul_nonneg hbb heb) hcos) hgeo
  linarith

/-- C9 counterexample: the non-specialised primary template of
`ReSTIR_DI_evaluate_target_function` returns −1, a negative scalar, so the
claim's "non-negative for every instantiation, including the primary
template" fails on the code. -/
theorem target_function_primary_negative_counterexample :
    ReSTIR_DI_evaluate_target_function_primary exRenderData exSample
      exSurface < 0 := by
  norm_num [ReSTIR_DI_evaluate_target_function_primary]

set_option maxHeartbeats 1000000 in
/-- C9 (amended): both real specialisations of the target function (with
and without visibility) return a non-negative scalar whenever the BSDF
oracle and the emission buffer are componentwise non-negative; the
non-specialised primary template instead returns the debug value −1. -/
theorem target_function_specializations_nonneg (sqrt : ℚ → ℚ)
    (rd : HIPRTRenderData) (sample : ReSTIRDISample) (surface : ReSTIRDISurface)
    (hbsdf : ∀ buf mat vol v n d, 0 ≤ (rd.bsdf_eval buf mat vol v n d).1.r ∧
      0 ≤ (rd.bsdf_eval buf mat vol v n d).1.g ∧
      0 ≤ (rd.bsdf_eval buf mat vol v n d).1.b)
    (hemission : ∀ i, 0 ≤ (rd.buffers.materials_buffer i).emission.r ∧
      0 ≤ (rd.buffers.materials_buffer i).emission.g ∧
      0 ≤ (rd.buffers.materials_buffer i).emission.b) :
    0 ≤ ReSTIR_DI_evaluate_target_function_noVis sqrt rd sample surface ∧
    0 ≤ ReSTIR_DI_evaluate_target_function_withVis sqrt rd sample surface ∧
    ReSTIR_DI_evaluate_target_function_primary rd sample surface = -1 := by
  refine ⟨?_, ?_, rfl⟩
  · by_cases hs : sample.emissive_triangle_index = -1
    · simp [ReSTIR_DI_evaluate_target_function_noVis, hs]
    · simp only [ReSTIR_DI_evaluate_target_function_noVis, if_neg hs]
      split_ifs
      all_goals try simp only [mul_one, mul_zero]
      all_goals try exact le_refl 0
      all_goals apply tf_core_nonneg
      all_goals
        first
          | exact hbsdf _ _ _ _ _ _
          | exact hemission _
          | exact le_sup_left
          | exact div_nonneg (abs_nonneg _) (mul_self_nonneg _)
          | norm_num
  · by_cases hs : sample.emissive_triangle_index = -1
    · simp [ReSTIR_DI_evaluate_target_function_withVis, hs]
    · simp only [ReSTIR_DI_evaluate_target_function_withVis, if_neg hs]
      split_ifs
      all_goals try simp only [mul_one, mul_zero]
      all_goals try exact le_refl 0
      all_goals apply tf_core_nonneg
      all_goals
        first
          | exact hbsdf _ _ _ _ _ _
          | exact hemission _
          | exact le_sup_left
          | exact div_nonneg (abs_nonneg _) (mul_self_nonneg _)
          | norm_num

/-- C9 witness: at the concrete render data (unit-colour BSDF oracle, unit
emission) both specialisations are non-negative and the primary template
returns −1. -/
theorem target_function_specializations_nonneg_witness :
    0 ≤ ReSTIR_DI_evaluate_target_function_noVis exSqrt exRenderData exSample
        exSurface ∧
    0 ≤ ReSTIR_DI_evaluate_target_function_withVis exSqrt exRenderData exSample
        exSurface ∧
    ReSTIR_DI_evaluate_target_function_primary exRenderData exSample
        exSurface = -1 :=
  target_function_specializations_nonneg exSqrt exRenderData exSample exSurface
    (fun buf mat vol v n d => by norm_num [exRenderData])
    (fun i => by norm_num [exRenderData, exMaterial])
